import Mathlib

/-!
Shallow embedding of the ideal-gas balloon simulator
(`src/js/physics.js`, `src/js/state.js`, and the animation-loop part of
`main.js`).  JavaScript numbers are modelled as real numbers; the state
object `SimulationState` becomes an explicit record threaded through the
step functions.
-/

namespace Gases

/-- Ideal gas constant, `const R = 8.314` in physics.js. -/
noncomputable def R : ℝ := 8.314

/-- Gas selector, the keys of `GAS_PROPERTIES` in state.js. -/
inductive GasType
  | HE
  | NE
  | AR
deriving DecidableEq

/-- Molar masses from `GAS_PROPERTIES` in state.js (kg/mol). -/
noncomputable def molarMass : GasType → ℝ
  | .HE => 0.0040026
  | .NE => 0.0201797
  | .AR => 0.039948

/-- Simulation mode, the `mode` string of state.js
(`IDLE`, `BOYLE`, `CHARLES`, `GAY-LUSSAC`, `MISSION`). -/
inductive Mode
  | IDLE
  | BOYLE
  | CHARLES
  | GAYLUSSAC
  | MISSION
deriving DecidableEq

/-- The `env` sub-object of state.js. -/
structure Env where
  altitude : ℝ
  pressure : ℝ
  temperature : ℝ
  gravity : ℝ

/-- The `balloon` sub-object of state.js. -/
structure Balloon where
  gasType : GasType
  moles : ℝ
  volume : ℝ
  radius : ℝ
  maxRadius : ℝ
  positionY : ℝ
  velocity : ℝ
  massPayload : ℝ
  massBalloon : ℝ
  constantVolume : ℝ

/-- The `animation.parameter` string of state.js: `pressure`,
`temperature`, or the empty string (modelled as `other`). -/
inductive Param
  | pressure
  | temperature
  | other
deriving DecidableEq

/-- The `animation` sub-object of state.js. -/
structure Animation where
  active : Bool
  startValue : ℝ
  targetValue : ℝ
  currentValue : ℝ
  duration : ℝ
  elapsed : ℝ
  parameter : Param
  direction : ℝ

/-- The whole `SimulationState` of state.js. -/
structure SimState where
  mode : Mode
  isRunning : Bool
  env : Env
  balloon : Balloon
  animation : Animation

/-- Result record of `getAtmosphere`. -/
structure Atmo where
  pressure : ℝ
  temperature : ℝ

/-- International Standard Atmosphere model, `getAtmosphere` in physics.js.
Temperature is floored at 1 K; pressure follows the barometric formula while
its base term is positive and is clamped to 0 beyond that. -/
noncomputable def getAtmosphere (altitude : ℝ) : Atmo :=
  let T0 : ℝ := 293
  let P0 : ℝ := 101325
  let L : ℝ := 0.0065
  let g : ℝ := 9.81
  let M_air : ℝ := 0.0289644
  let temperature0 : ℝ := T0 - L * altitude
  let temperature : ℝ := if temperature0 < 1 then 1 else temperature0
  let exponent : ℝ := (g * M_air) / (R * L)
  let base : ℝ := 1 - (L * altitude) / T0
  let pressure : ℝ := if 0 < base then P0 * base ^ exponent else 0
  ⟨pressure, temperature⟩

/-- Ideal-gas volume, `calculateVolume` in physics.js.  The source returns
`Infinity` when `P ≤ 0` (vacuum expansion); real numbers have no infinity, so
that out-of-domain branch is modelled by the junk value 0 — no theorem below
evaluates the function at `P ≤ 0`. -/
noncomputable def calculateVolume (n T P : ℝ) : ℝ :=
  if P ≤ 0 then 0 else (n * R * T) / P

/-- Moles from initial conditions, `calculateMoles` in physics.js. -/
noncomputable def calculateMoles (P V T : ℝ) : ℝ :=
  (P * V) / (R * T)

/-- Section 1 of `simulationLoop` (physics.js): in Mission mode while
running, advance altitude by velocity and refresh the ambient pressure and
temperature from the atmosphere model. -/
noncomputable def envUpdate (deltaTime : ℝ) (s : SimState) : SimState :=
  if s.mode = Mode.MISSION ∧ s.isRunning = true then
    let altitude : ℝ := s.env.altitude + s.balloon.velocity * deltaTime
    let envData : Atmo := getAtmosphere altitude
    { s with
      env := { s.env with
        altitude := altitude
        pressure := envData.pressure
        temperature := envData.temperature }
      balloon := { s.balloon with positionY := altitude } }
  else s

/-- Section 2 of `simulationLoop` (physics.js): in every mode except
Gay-Lussac, recompute volume from the ideal gas law and radius from the
sphere formula; Gay-Lussac deliberately leaves volume and radius untouched. -/
noncomputable def gasUpdate (s : SimState) : SimState :=
  if s.mode = Mode.GAYLUSSAC then s
  else
    let volume : ℝ := calculateVolume s.balloon.moles s.env.temperature s.env.pressure
    let radius : ℝ := (3 * volume / (4 * Real.pi)) ^ ((1 : ℝ) / 3)
    { s with balloon := { s.balloon with volume := volume, radius := radius } }

/-- Section 3 of `simulationLoop` (physics.js): in Mission mode while
running, compute buoyancy, weight and drag, integrate velocity by explicit
Euler, and clamp to the ground when altitude goes negative. -/
noncomputable def forcesUpdate (deltaTime : ℝ) (s : SimState) : SimState :=
  if s.mode = Mode.MISSION ∧ s.isRunning = true then
    let g : ℝ := s.env.gravity
    let M_air : ℝ := 0.0289644
    let M_gas : ℝ := molarMass s.balloon.gasType
    let rhoAir : ℝ := (s.env.pressure * M_air) / (R * s.env.temperature)
    let liftForce : ℝ := rhoAir * s.balloon.volume * g
    let massGas : ℝ := s.balloon.moles * M_gas
    let totalMass : ℝ := s.balloon.massPayload + s.balloon.massBalloon + massGas
    let gravityForce : ℝ := totalMass * g
    let netForce : ℝ := liftForce - gravityForce
    let Cd : ℝ := 0.47
    let area : ℝ := Real.pi * s.balloon.radius * s.balloon.radius
    let dragForce : ℝ :=
      -(Real.sign s.balloon.velocity) * 0.5 * rhoAir *
        (s.balloon.velocity * s.balloon.velocity) * Cd * area
    let totalForce : ℝ := netForce + dragForce
    let acceleration : ℝ := totalForce / totalMass
    let velocity : ℝ := s.balloon.velocity + acceleration * deltaTime
    let s' : SimState := { s with balloon := { s.balloon with velocity := velocity } }
    if s'.env.altitude < 0 then
      { s' with
        env := { s'.env with altitude := 0 }
        balloon := { s'.balloon with positionY := 0, velocity := 0 } }
    else s'
  else s

/-- Section 4 of `simulationLoop` (physics.js): the burst check.  It only
reads the state. -/
noncomputable def burstCheck (s : SimState) : Bool :=
  if s.balloon.radius ≥ s.balloon.maxRadius then true else false

/-- `simulationLoop(deltaTime)` of physics.js: the four sections in order,
returning the new state together with the `exploded` flag. -/
noncomputable def simulationLoop (deltaTime : ℝ) (s : SimState) : SimState × Bool :=
  let s3 : SimState := forcesUpdate deltaTime (gasUpdate (envUpdate deltaTime s))
  (s3, burstCheck s3)

/-- The fill operation, `recalculateMoles` in main.js: from a fill pressure,
fill temperature and initial radius, set moles by the ideal gas law and reset
volume and radius to the spherical initial values. -/
noncomputable def fill (P T initialRadius : ℝ) (s : SimState) : SimState :=
  let initialVolume : ℝ := (4 / 3) * Real.pi * initialRadius ^ (3 : ℕ)
  { s with balloon := { s.balloon with
      moles := calculateMoles P initialVolume T
      volume := initialVolume
      radius := initialRadius } }

/-- The parameter-ramp block at the top of `animate` in main.js: while the
animation is active, advance `elapsed`, interpolate the animated value
linearly, write it to the animated environment scalar (recomputing pressure
from the constant volume when Gay-Lussac ramps temperature), and on
completion snap to the target (again recomputing Gay-Lussac pressure) and
deactivate. -/
noncomputable def rampUpdate (deltaTime : ℝ) (s : SimState) : SimState :=
  if s.animation.active = true then
    let elapsed : ℝ := s.animation.elapsed + deltaTime
    let progress : ℝ := min (elapsed / s.animation.duration) 1
    let value : ℝ :=
      s.animation.startValue + (s.animation.targetValue - s.animation.startValue) * progress
    let s1 : SimState := { s with animation := { s.animation with elapsed := elapsed } }
    let s2 : SimState :=
      match s1.animation.parameter with
      | Param.pressure => { s1 with env := { s1.env with pressure := value } }
      | Param.temperature =>
        let sT : SimState := { s1 with env := { s1.env with temperature := value } }
        if sT.mode = Mode.GAYLUSSAC then
          { sT with env := { sT.env with
              pressure := (sT.balloon.moles * 8.314 * sT.env.temperature) /
                sT.balloon.constantVolume } }
        else sT
      | Param.other => s1
    if progress ≥ 1 then
      let s3 : SimState :=
        match s2.animation.parameter with
        | Param.pressure => { s2 with env := { s2.env with pressure := s2.animation.targetValue } }
        | Param.temperature =>
          let sT : SimState := { s2 with env := { s2.env with
              temperature := s2.animation.targetValue } }
          if sT.mode = Mode.GAYLUSSAC then
            { sT with env := { sT.env with
                pressure := (sT.balloon.moles * 8.314 * sT.env.temperature) /
                  sT.balloon.constantVolume } }
          else sT
        | Param.other => s2
      { s3 with animation := { s3.animation with active := false } }
    else s2
  else s

/-- One frame of `animate` in main.js as seen by the physics state: the
parameter ramp followed by `simulationLoop`. -/
noncomputable def frame (deltaTime : ℝ) (s : SimState) : SimState × Bool :=
  simulationLoop deltaTime (rampUpdate deltaTime s)

/-- State reached after a sequence of frames with the given time steps. -/
noncomputable def frames : List ℝ → SimState → SimState
  | [], s => s
  | dt :: rest, s => frames rest (frame dt s).1

/-- Whether any frame of the sequence reports `exploded = true`. -/
noncomputable def framesAnyExploded : List ℝ → SimState → Bool
  | [], _ => false
  | dt :: rest, s => (frame dt s).2 || framesAnyExploded rest (frame dt s).1

/-- The frame delta computed by `animate` in main.js:
`Math.min((currentTime - lastTime) / 1000, 0.1)`. -/
noncomputable def animateDeltaTime (currentTime lastTime : ℝ) : ℝ :=
  min ((currentTime - lastTime) / 1000) 0.1

/-- The temperature slider input handler in main.js (lines 231-237): in
IDLE, CHARLES or GAY-LUSSAC mode it writes the slider value straight to the
environment temperature; no Gay-Lussac pressure recomputation happens on
this path. -/
noncomputable def setTemperature (value : ℝ) (s : SimState) : SimState :=
  if s.mode = Mode.IDLE ∨ s.mode = Mode.CHARLES ∨ s.mode = Mode.GAYLUSSAC then
    { s with env := { s.env with temperature := value } }
  else s

/-- Concrete Gay-Lussac state with an active temperature ramp (pressure
satisfies the constant-volume relation 1·8.314·293/2 = 1218.001). -/
noncomputable def glRampState : SimState :=
  ⟨Mode.GAYLUSSAC, false, ⟨0, 1218.001, 293, 9.81⟩,
    ⟨GasType.HE, 1, 2, 1, 5, 0, 0, 0.5, 0.2, 2⟩,
    ⟨true, 293, 400, 293, 10, 0, Param.temperature, 1⟩⟩

/-- Concrete Gay-Lussac state whose radius 6 already exceeds its burst
threshold 5. -/
noncomputable def glBurstState : SimState :=
  ⟨Mode.GAYLUSSAC, false, ⟨0, 101325, 293, 9.81⟩,
    ⟨GasType.HE, 1, 1, 6, 5, 0, 0, 0.5, 0.2, 1⟩,
    ⟨false, 0, 0, 0, 10, 0, Param.other, 1⟩⟩

/-- Concrete Gay-Lussac state with radius 1 below its burst threshold 5. -/
noncomputable def glSafeState : SimState :=
  ⟨Mode.GAYLUSSAC, false, ⟨0, 101325, 293, 9.81⟩,
    ⟨GasType.HE, 1, 1, 1, 5, 0, 0, 0.5, 0.2, 1⟩,
    ⟨false, 0, 0, 0, 10, 0, Param.other, 1⟩⟩

/-- Concrete running Mission state rising at 1 m/s from the ground. -/
noncomputable def missionRiseState : SimState :=
  ⟨Mode.MISSION, true, ⟨0, 101325, 293, 9.81⟩,
    ⟨GasType.HE, 100, 1, 1, 5, 0, 1, 0.5, 0.2, 0⟩,
    ⟨false, 0, 0, 0, 10, 0, Param.other, 1⟩⟩

/-- Concrete running Mission state at rest on the ground with 100 mol of
helium (strongly buoyant). -/
noncomputable def missionRestState : SimState :=
  ⟨Mode.MISSION, true, ⟨0, 101325, 293, 9.81⟩,
    ⟨GasType.HE, 100, 1, 1, 5, 0, 0, 0.5, 0.2, 0⟩,
    ⟨false, 0, 0, 0, 10, 0, Param.other, 1⟩⟩

/-- Concrete running Mission state at the ground moving downward at 1 m/s. -/
noncomputable def missionFallState : SimState :=
  ⟨Mode.MISSION, true, ⟨0, 101325, 293, 9.81⟩,
    ⟨GasType.HE, 100, 1, 1, 5, 0, -1, 0.5, 0.2, 0⟩,
    ⟨false, 0, 0, 0, 10, 0, Param.other, 1⟩⟩

/-- Concrete Free-mode state at standard fill conditions 101325 Pa, 293 K. -/
noncomputable def freeFillState : SimState :=
  ⟨Mode.IDLE, false, ⟨0, 101325, 293, 9.81⟩,
    ⟨GasType.HE, 0, 0, 1, 5, 0, 0, 0.5, 0.2, 0⟩,
    ⟨false, 0, 0, 0, 10, 0, Param.other, 1⟩⟩

/-! Shared helper lemmas about the step phases. -/

theorem R_pos : (0 : ℝ) < R := by norm_num [R]

theorem envUpdate_of_not_mission (dt : ℝ) (s : SimState) (h : s.mode ≠ Mode.MISSION) :
    envUpdate dt s = s := by
  simp [envUpdate, h]

theorem forcesUpdate_of_not_mission (dt : ℝ) (s : SimState) (h : s.mode ≠ Mode.MISSION) :
    forcesUpdate dt s = s := by
  simp [forcesUpdate, h]

theorem gasUpdate_gayLussac (s : SimState) (h : s.mode = Mode.GAYLUSSAC) :
    gasUpdate s = s := by
  simp [gasUpdate, h]

theorem gasUpdate_of_ne (s : SimState) (h : s.mode ≠ Mode.GAYLUSSAC) :
    gasUpdate s = { s with balloon := { s.balloon with
      volume := calculateVolume s.balloon.moles s.env.temperature s.env.pressure
      radius := (3 * calculateVolume s.balloon.moles s.env.temperature s.env.pressure /
        (4 * Real.pi)) ^ ((1 : ℝ) / 3) } } := by
  simp [gasUpdate, h]

theorem gasUpdate_mode (s : SimState) : (gasUpdate s).mode = s.mode := by
  unfold gasUpdate; split <;> rfl

theorem envUpdate_mode (dt : ℝ) (s : SimState) : (envUpdate dt s).mode = s.mode := by
  unfold envUpdate; split <;> rfl

theorem forcesUpdate_mode (dt : ℝ) (s : SimState) : (forcesUpdate dt s).mode = s.mode := by
  unfold forcesUpdate
  split
  · dsimp only
    split <;> rfl
  · rfl

theorem calculateVolume_of_pos (n T P : ℝ) (hP : 0 < P) :
    calculateVolume n T P = (n * R * T) / P := by
  rw [calculateVolume, if_neg (not_le.mpr hP)]

theorem calculateVolume_calculateMoles (P T V0 : ℝ) (hP : 0 < P) (hT : 0 < T) :
    calculateVolume (calculateMoles P V0 T) T P = V0 := by
  rw [calculateVolume_of_pos _ _ _ hP, calculateMoles]
  have hR : (R : ℝ) ≠ 0 := ne_of_gt R_pos
  field_simp
  ring

theorem radius_of_sphereVolume (r : ℝ) (hr : 0 ≤ r) :
    (3 * ((4 / 3) * Real.pi * r ^ (3 : ℕ)) / (4 * Real.pi)) ^ ((1 : ℝ) / 3) = r := by
  have hpi : (Real.pi : ℝ) ≠ 0 := Real.pi_ne_zero
  have h1 : 3 * ((4 / 3) * Real.pi * r ^ (3 : ℕ)) / (4 * Real.pi) = r ^ (3 : ℕ) := by
    field_simp
  rw [h1, one_div]
  have h3 : ((3 : ℝ))⁻¹ = (((3 : ℕ) : ℝ))⁻¹ := by norm_num
  rw [h3, Real.pow_rpow_inv_natCast hr (by norm_num)]

theorem gasUpdate_env (s : SimState) : (gasUpdate s).env = s.env := by
  unfold gasUpdate; split <;> rfl

theorem gasUpdate_isRunning (s : SimState) : (gasUpdate s).isRunning = s.isRunning := by
  unfold gasUpdate; split <;> rfl

theorem envUpdate_isRunning (dt : ℝ) (s : SimState) :
    (envUpdate dt s).isRunning = s.isRunning := by
  unfold envUpdate; split <;> rfl

theorem rampUpdate_mode (dt : ℝ) (s : SimState) : (rampUpdate dt s).mode = s.mode := by
  unfold rampUpdate
  dsimp only
  repeat' split
  all_goals rfl

theorem rampUpdate_balloon (dt : ℝ) (s : SimState) :
    (rampUpdate dt s).balloon = s.balloon := by
  unfold rampUpdate
  dsimp only
  repeat' split
  all_goals rfl

theorem rampUpdate_parameter (dt : ℝ) (s : SimState) :
    (rampUpdate dt s).animation.parameter = s.animation.parameter := by
  unfold rampUpdate
  dsimp only
  repeat' split
  all_goals rfl

theorem rampUpdate_inactive (dt : ℝ) (s : SimState) (h : s.animation.active = false) :
    rampUpdate dt s = s := by
  unfold rampUpdate
  rw [if_neg (by rw [h]; simp)]

/-- In every non-Mission, non-Gay-Lussac mode, a step leaves the environment
and the moles unchanged and recomputes volume and radius from the gas law. -/
theorem step_idle_like (dt : ℝ) (s : SimState)
    (hm : s.mode ≠ Mode.MISSION) (hg : s.mode ≠ Mode.GAYLUSSAC) :
    (simulationLoop dt s).1.env = s.env ∧
    (simulationLoop dt s).1.balloon.moles = s.balloon.moles ∧
    (simulationLoop dt s).1.balloon.volume =
      calculateVolume s.balloon.moles s.env.temperature s.env.pressure ∧
    (simulationLoop dt s).1.balloon.radius =
      (3 * calculateVolume s.balloon.moles s.env.temperature s.env.pressure /
        (4 * Real.pi)) ^ ((1 : ℝ) / 3) := by
  have h1 : envUpdate dt s = s := envUpdate_of_not_mission dt s hm
  have h2 := gasUpdate_of_ne s hg
  have h3 : forcesUpdate dt (gasUpdate s) = gasUpdate s :=
    forcesUpdate_of_not_mission dt _ (by rw [gasUpdate_mode]; exact hm)
  have hres : (simulationLoop dt s).1 = forcesUpdate dt (gasUpdate (envUpdate dt s)) := rfl
  rw [hres, h1, h3, h2]
  exact ⟨rfl, rfl, rfl, rfl⟩

/-- In Gay-Lussac mode the step is the identity on the state. -/
theorem step_gayLussac (dt : ℝ) (s : SimState) (hm : s.mode = Mode.GAYLUSSAC) :
    (simulationLoop dt s).1 = s ∧ (simulationLoop dt s).2 = burstCheck s := by
  have h1 : envUpdate dt s = s := envUpdate_of_not_mission dt s (by rw [hm]; simp)
  have h2 : gasUpdate s = s := gasUpdate_gayLussac s hm
  have h3 : forcesUpdate dt s = s := forcesUpdate_of_not_mission dt s (by rw [hm]; simp)
  constructor
  · show forcesUpdate dt (gasUpdate (envUpdate dt s)) = s
    rw [h1, h2, h3]
  · show burstCheck (forcesUpdate dt (gasUpdate (envUpdate dt s))) = burstCheck s
    rw [h1, h2, h3]

/-- In Gay-Lussac mode a whole frame is the ramp followed by the identity. -/
theorem frame_gayLussac (dt : ℝ) (s : SimState) (hm : s.mode = Mode.GAYLUSSAC) :
    (frame dt s).1 = rampUpdate dt s ∧
    (frame dt s).2 = burstCheck (rampUpdate dt s) := by
  have hm' : (rampUpdate dt s).mode = Mode.GAYLUSSAC := by rw [rampUpdate_mode, hm]
  exact step_gayLussac dt (rampUpdate dt s) hm'

theorem burstCheck_true_iff (s : SimState) :
    burstCheck s = true ↔ s.balloon.maxRadius ≤ s.balloon.radius := by
  rw [burstCheck]
  split_ifs with h
  · simpa [ge_iff_le] using h
  · simpa [ge_iff_le] using h

/-- While the ramp is animating temperature in Gay-Lussac mode, it writes
pressure = moles·8.314·temperature/constantVolume, in the interpolation
branch as well as at the final snap. -/
theorem rampUpdate_gayLussac_pressure (dt : ℝ) (s : SimState)
    (hm : s.mode = Mode.GAYLUSSAC)
    (hpar : s.animation.parameter = Param.temperature)
    (hact : s.animation.active = true) :
    (rampUpdate dt s).env.pressure =
      (s.balloon.moles * 8.314 * (rampUpdate dt s).env.temperature) /
        s.balloon.constantVolume := by
  simp only [rampUpdate, hact, hpar, hm, if_true]
  split <;> rfl

/-- The constant-volume pressure relation survives a ramp update in
Gay-Lussac mode whether the ramp is active or not. -/
theorem rampUpdate_glRel (dt : ℝ) (s : SimState)
    (hm : s.mode = Mode.GAYLUSSAC) (hpar : s.animation.parameter = Param.temperature)
    (hrel : s.env.pressure =
      (s.balloon.moles * 8.314 * s.env.temperature) / s.balloon.constantVolume) :
    (rampUpdate dt s).env.pressure =
      ((rampUpdate dt s).balloon.moles * 8.314 * (rampUpdate dt s).env.temperature) /
        (rampUpdate dt s).balloon.constantVolume := by
  rw [rampUpdate_balloon]
  cases hact : s.animation.active with
  | false => rw [rampUpdate_inactive dt s hact]; exact hrel
  | true => exact rampUpdate_gayLussac_pressure dt s hm hpar hact

/-- Across any sequence of Gay-Lussac frames the whole balloon record is
unchanged and the constant-volume pressure relation is maintained. -/
theorem frames_gayLussac_aux (dts : List ℝ) (s : SimState)
    (hm : s.mode = Mode.GAYLUSSAC) (hpar : s.animation.parameter = Param.temperature)
    (hrel : s.env.pressure =
      (s.balloon.moles * 8.314 * s.env.temperature) / s.balloon.constantVolume) :
    (frames dts s).mode = Mode.GAYLUSSAC ∧
    (frames dts s).balloon = s.balloon ∧
    (frames dts s).env.pressure =
      ((frames dts s).balloon.moles * 8.314 * (frames dts s).env.temperature) /
        (frames dts s).balloon.constantVolume := by
  induction dts generalizing s with
  | nil => exact ⟨hm, rfl, hrel⟩
  | cons dt rest ih =>
    have hf := frame_gayLussac dt s hm
    have hm' : (frame dt s).1.mode = Mode.GAYLUSSAC := by rw [hf.1, rampUpdate_mode, hm]
    have hpar' : (frame dt s).1.animation.parameter = Param.temperature := by
      rw [hf.1, rampUpdate_parameter, hpar]
    have hball : (frame dt s).1.balloon = s.balloon := by rw [hf.1, rampUpdate_balloon]
    have hrel' : (frame dt s).1.env.pressure =
        ((frame dt s).1.balloon.moles * 8.314 * (frame dt s).1.env.temperature) /
          (frame dt s).1.balloon.constantVolume := by
      rw [hf.1]; exact rampUpdate_glRel dt s hm hpar hrel
    obtain ⟨a, b, c⟩ := ih (frame dt s).1 hm' hpar' hrel'
    refine ⟨a, ?_, c⟩
    show (frames rest (frame dt s).1).balloon = s.balloon
    rw [b, hball]

/-- In Gay-Lussac mode with radius under the burst threshold, no frame of
any sequence reports an explosion. -/
theorem framesAnyExploded_gayLussac (dts : List ℝ) (s : SimState)
    (hm : s.mode = Mode.GAYLUSSAC) (hlt : s.balloon.radius < s.balloon.maxRadius) :
    framesAnyExploded dts s = false := by
  induction dts generalizing s with
  | nil => rfl
  | cons dt rest ih =>
    have hf := frame_gayLussac dt s hm
    have hflag : (frame dt s).2 = false := by
      rw [hf.2, burstCheck, rampUpdate_balloon, if_neg (not_le.mpr hlt)]
    have hm' : (frame dt s).1.mode = Mode.GAYLUSSAC := by rw [hf.1, rampUpdate_mode, hm]
    have hlt' : (frame dt s).1.balloon.radius < (frame dt s).1.balloon.maxRadius := by
      rw [hf.1, rampUpdate_balloon]; exact hlt
    show ((frame dt s).2 || framesAnyExploded rest (frame dt s).1) = false
    rw [hflag, ih (frame dt s).1 hm' hlt']
    rfl

/-- Inside Mission mode, a running step that has driven altitude negative is
clamped to the ground with position and velocity zeroed. -/
theorem forcesUpdate_clamp (dt : ℝ) (s : SimState)
    (hm : s.mode = Mode.MISSION) (hr : s.isRunning = true) (hneg : s.env.altitude < 0) :
    (forcesUpdate dt s).env.altitude = 0 ∧
    (forcesUpdate dt s).balloon.positionY = 0 ∧
    (forcesUpdate dt s).balloon.velocity = 0 := by
  unfold forcesUpdate
  rw [if_pos ⟨hm, hr⟩]
  dsimp only
  rw [if_pos hneg]
  exact ⟨rfl, rfl, rfl⟩

/-- The force phase never touches the environment unless the ground clamp
fires. -/
theorem forcesUpdate_noclamp_env (dt : ℝ) (s : SimState) (hnn : ¬ s.env.altitude < 0) :
    (forcesUpdate dt s).env = s.env := by
  unfold forcesUpdate
  split
  · dsimp only
    rw [if_neg hnn]
  · rfl

theorem envUpdate_mission (dt : ℝ) (s : SimState) (hm : s.mode = Mode.MISSION)
    (hr : s.isRunning = true) :
    (envUpdate dt s).env.altitude = s.env.altitude + s.balloon.velocity * dt := by
  unfold envUpdate
  rw [if_pos ⟨hm, hr⟩]

/-- Explicit Euler update of velocity by a running Mission step starting
from rest (drag vanishes at zero velocity). -/
theorem forcesUpdate_velocity_rest (dt : ℝ) (s : SimState)
    (hm : s.mode = Mode.MISSION) (hr : s.isRunning = true)
    (hvel : s.balloon.velocity = 0) (hnn : ¬ s.env.altitude < 0) :
    (forcesUpdate dt s).balloon.velocity =
      (((s.env.pressure * 0.0289644) / (R * s.env.temperature)) * s.balloon.volume *
          s.env.gravity -
        (s.balloon.massPayload + s.balloon.massBalloon +
          s.balloon.moles * molarMass s.balloon.gasType) * s.env.gravity) /
        (s.balloon.massPayload + s.balloon.massBalloon +
          s.balloon.moles * molarMass s.balloon.gasType) * dt := by
  unfold forcesUpdate
  rw [if_pos ⟨hm, hr⟩]
  dsimp only
  rw [if_neg hnn]
  dsimp only
  rw [hvel, Real.sign_zero]
  ring

/-! The claims. -/

/-- C2: for every altitude, `getAtmosphere` returns temperature
293 − 0.0065·h floored at 1, and pressure given by the barometric formula
101325·(1 − 0.0065·h/293)^((9.81·0.0289644)/(8.314·0.0065)) when the base is
positive, and 0 otherwise. -/
theorem C2_getAtmosphere_spec (h : ℝ) :
    (getAtmosphere h).temperature = max 1 (293 - 0.0065 * h) ∧
    (getAtmosphere h).pressure =
      (if 0 < 1 - 0.0065 * h / 293 then
        101325 * (1 - 0.0065 * h / 293) ^
          (((9.81 * 0.0289644) / (8.314 * 0.0065) : ℝ))
      else 0) := by
  constructor
  · show (if 293 - 0.0065 * h < 1 then (1 : ℝ) else 293 - 0.0065 * h) = _
    rcases lt_or_le (293 - 0.0065 * h) 1 with hlt | hle
    · rw [if_pos hlt, max_eq_left hlt.le]
    · rw [if_neg (not_lt.mpr hle), max_eq_right hle]
  · show (if 0 < 1 - 0.0065 * h / 293 then
        (101325 : ℝ) * (1 - 0.0065 * h / 293) ^
          (((9.81 * 0.0289644) / (R * 0.0065) : ℝ))
      else 0) = _
    rw [R]

/-- C1: filling at pressure P, temperature T and radius r and then stepping
once in Free (IDLE) mode with the environment pressure and temperature still
P and T recomputes exactly the original volume (4/3)·π·r³ and radius r. -/
theorem C1_fill_step_roundTrip (P T r dt : ℝ) (s : SimState)
    (hP : 0 < P) (hT : 0 < T) (hr : 0 < r)
    (hmode : s.mode = Mode.IDLE) (hsP : s.env.pressure = P) (hsT : s.env.temperature = T) :
    (simulationLoop dt (fill P T r s)).1.balloon.volume =
      (4 / 3) * Real.pi * r ^ (3 : ℕ) ∧
    (simulationLoop dt (fill P T r s)).1.balloon.radius = r := by
  have hfm : (fill P T r s).mode = Mode.IDLE := hmode
  have h1 : envUpdate dt (fill P T r s) = fill P T r s :=
    envUpdate_of_not_mission dt _ (by rw [hfm]; simp)
  have h2 := gasUpdate_of_ne (fill P T r s) (by rw [hfm]; simp)
  have h3m : (gasUpdate (fill P T r s)).mode = Mode.IDLE := by rw [gasUpdate_mode, hfm]
  have h3 : forcesUpdate dt (gasUpdate (fill P T r s)) = gasUpdate (fill P T r s) :=
    forcesUpdate_of_not_mission dt _ (by rw [h3m]; simp)
  have hres : (simulationLoop dt (fill P T r s)).1 =
      forcesUpdate dt (gasUpdate (envUpdate dt (fill P T r s))) := rfl
  rw [hres, h1, h3, h2]
  have hVcm : calculateVolume (fill P T r s).balloon.moles (fill P T r s).env.temperature
      (fill P T r s).env.pressure = (4 / 3) * Real.pi * r ^ (3 : ℕ) := by
    show calculateVolume (calculateMoles P ((4 / 3) * Real.pi * r ^ (3 : ℕ)) T)
      s.env.temperature s.env.pressure = _
    rw [hsP, hsT]
    exact calculateVolume_calculateMoles P T _ hP hT
  constructor
  · exact hVcm
  · show (3 * calculateVolume (fill P T r s).balloon.moles (fill P T r s).env.temperature
      (fill P T r s).env.pressure / (4 * Real.pi)) ^ ((1 : ℝ) / 3) = r
    rw [hVcm]
    exact radius_of_sphereVolume r hr.le

/-- C4: in Boyle mode, two post-step states whose pre-step states share the
same temperature and moles and have positive pressure have the same
pressure·volume product, equal to moles·R·temperature. -/
theorem C4_boyle_invariant (dt1 dt2 : ℝ) (s1 s2 : SimState)
    (hm1 : s1.mode = Mode.BOYLE) (hm2 : s2.mode = Mode.BOYLE)
    (hT : s1.env.temperature = s2.env.temperature)
    (hn : s1.balloon.moles = s2.balloon.moles)
    (hP1 : 0 < s1.env.pressure) (hP2 : 0 < s2.env.pressure) :
    (simulationLoop dt1 s1).1.env.pressure * (simulationLoop dt1 s1).1.balloon.volume =
      (simulationLoop dt2 s2).1.env.pressure * (simulationLoop dt2 s2).1.balloon.volume ∧
    (simulationLoop dt1 s1).1.env.pressure * (simulationLoop dt1 s1).1.balloon.volume =
      s1.balloon.moles * R * s1.env.temperature := by
  obtain ⟨e1, -, v1, -⟩ := step_idle_like dt1 s1 (by rw [hm1]; simp) (by rw [hm1]; simp)
  obtain ⟨e2, -, v2, -⟩ := step_idle_like dt2 s2 (by rw [hm2]; simp) (by rw [hm2]; simp)
  have key1 : (simulationLoop dt1 s1).1.env.pressure *
      (simulationLoop dt1 s1).1.balloon.volume = s1.balloon.moles * R * s1.env.temperature := by
    rw [e1, v1, calculateVolume_of_pos _ _ _ hP1]
    field_simp
  have key2 : (simulationLoop dt2 s2).1.env.pressure *
      (simulationLoop dt2 s2).1.balloon.volume = s2.balloon.moles * R * s2.env.temperature := by
    rw [e2, v2, calculateVolume_of_pos _ _ _ hP2]
    field_simp
  refine ⟨?_, key1⟩
  rw [key1, key2, hT, hn]

/-- C4 witness: two concrete Boyle states with pressures 2 and 4 and shared
temperature 300 and moles 1. -/
theorem C4_witness :
    (simulationLoop 0.1
      ⟨Mode.BOYLE, false, ⟨0, 2, 300, 9.81⟩,
        ⟨GasType.HE, 1, 0, 1, 5, 0, 0, 0.5, 0.2, 0⟩,
        ⟨false, 0, 0, 0, 10, 0, Param.other, 1⟩⟩).1.env.pressure *
    (simulationLoop 0.1
      ⟨Mode.BOYLE, false, ⟨0, 2, 300, 9.81⟩,
        ⟨GasType.HE, 1, 0, 1, 5, 0, 0, 0.5, 0.2, 0⟩,
        ⟨false, 0, 0, 0, 10, 0, Param.other, 1⟩⟩).1.balloon.volume =
    (simulationLoop 0.2
      ⟨Mode.BOYLE, false, ⟨0, 4, 300, 9.81⟩,
        ⟨GasType.HE, 1, 0, 1, 5, 0, 0, 0.5, 0.2, 0⟩,
        ⟨false, 0, 0, 0, 10, 0, Param.other, 1⟩⟩).1.env.pressure *
    (simulationLoop 0.2
      ⟨Mode.BOYLE, false, ⟨0, 4, 300, 9.81⟩,
        ⟨GasType.HE, 1, 0, 1, 5, 0, 0, 0.5, 0.2, 0⟩,
        ⟨false, 0, 0, 0, 10, 0, Param.other, 1⟩⟩).1.balloon.volume :=
  (C4_boyle_invariant 0.1 0.2
    ⟨Mode.BOYLE, false, ⟨0, 2, 300, 9.81⟩,
      ⟨GasType.HE, 1, 0, 1, 5, 0, 0, 0.5, 0.2, 0⟩,
      ⟨false, 0, 0, 0, 10, 0, Param.other, 1⟩⟩
    ⟨Mode.BOYLE, false, ⟨0, 4, 300, 9.81⟩,
      ⟨GasType.HE, 1, 0, 1, 5, 0, 0, 0.5, 0.2, 0⟩,
      ⟨false, 0, 0, 0, 10, 0, Param.other, 1⟩⟩
    rfl rfl rfl rfl (by norm_num) (by norm_num)).1

/-- C3 counterexample: a temperature change through the direct slider path
(not the ramp) followed by a Gay-Lussac step changes the
pressure/temperature quotient, because only the ramp path recomputes
pressure from the constant volume. -/
theorem C3_counterexample :
    (frame 0.1 (setTemperature 400 glSafeState)).1.env.pressure /
      (frame 0.1 (setTemperature 400 glSafeState)).1.env.temperature ≠
    glSafeState.env.pressure / glSafeState.env.temperature := by
  have hc : glSafeState.mode = Mode.IDLE ∨ glSafeState.mode = Mode.CHARLES ∨
      glSafeState.mode = Mode.GAYLUSSAC := Or.inr (Or.inr rfl)
  have hset : setTemperature 400 glSafeState =
      { glSafeState with env := { glSafeState.env with temperature := 400 } } := by
    unfold setTemperature
    rw [if_pos hc]
  have hmode : (setTemperature 400 glSafeState).mode = Mode.GAYLUSSAC := by
    rw [hset]; rfl
  have hact : (setTemperature 400 glSafeState).animation.active = false := by
    rw [hset]; rfl
  have hramp : rampUpdate 0.1 (setTemperature 400 glSafeState) =
      setTemperature 400 glSafeState := rampUpdate_inactive 0.1 _ hact
  have hf := frame_gayLussac 0.1 (setTemperature 400 glSafeState) hmode
  rw [hf.1, hramp, hset]
  norm_num [glSafeState]

/-- C3 (amended): in Gay-Lussac mode with the temperature ramp as the only
temperature driver, any sequence of frames leaves the balloon's radius and
volume unchanged, keeps the ramp-maintained relation
pressure = moles·8.314·temperature/constantVolume (enforced both during
interpolation and at the final snap), and therefore keeps the
pressure/temperature quotient constant.  (Temperature changes through the
direct slider path do not recompute pressure and break the quotient.) -/
theorem C3_gayLussac_invariant (dts : List ℝ) (s : SimState)
    (hm : s.mode = Mode.GAYLUSSAC)
    (hpar : s.animation.parameter = Param.temperature)
    (hcv : s.balloon.constantVolume ≠ 0)
    (hrel : s.env.pressure =
      (s.balloon.moles * 8.314 * s.env.temperature) / s.balloon.constantVolume) :
    (frames dts s).balloon.radius = s.balloon.radius ∧
    (frames dts s).balloon.volume = s.balloon.volume ∧
    (frames dts s).env.pressure =
      ((frames dts s).balloon.moles * 8.314 * (frames dts s).env.temperature) /
        (frames dts s).balloon.constantVolume ∧
    ((frames dts s).env.temperature ≠ 0 → s.env.temperature ≠ 0 →
      (frames dts s).env.pressure / (frames dts s).env.temperature =
        s.env.pressure / s.env.temperature) := by
  obtain ⟨-, hb, hp⟩ := frames_gayLussac_aux dts s hm hpar hrel
  refine ⟨by rw [hb], by rw [hb], hp, ?_⟩
  intro hT' hT
  rw [hp, hb, hrel]
  field_simp
  ring

/-- C3 witness: one frame of 0.1 s on a concrete ramping Gay-Lussac state. -/
theorem C3_witness :
    (frames [0.1] glRampState).balloon.radius = glRampState.balloon.radius ∧
    (frames [0.1] glRampState).balloon.volume = glRampState.balloon.volume :=
  ⟨(C3_gayLussac_invariant [0.1] glRampState rfl rfl (by norm_num [glRampState])
      (by norm_num [glRampState])).1,
   (C3_gayLussac_invariant [0.1] glRampState rfl rfl (by norm_num [glRampState])
      (by norm_num [glRampState])).2.1⟩

/-- C10: in Gay-Lussac mode a frame's burst flag is decided entirely by the
pre-step radius, and from a state below the burst threshold no sequence of
temperature-ramping frames can ever report a burst. -/
theorem C10_gayLussac_burst_prestate (s : SimState) (hm : s.mode = Mode.GAYLUSSAC) :
    (∀ dt : ℝ, ((frame dt s).2 = true ↔ s.balloon.maxRadius ≤ s.balloon.radius)) ∧
    (s.balloon.radius < s.balloon.maxRadius →
      ∀ dts : List ℝ, framesAnyExploded dts s = false) := by
  constructor
  · intro dt
    have hf := frame_gayLussac dt s hm
    rw [hf.2, burstCheck_true_iff, rampUpdate_balloon]
  · intro hlt dts
    exact framesAnyExploded_gayLussac dts s hm hlt

/-- C10 witness: a non-bursting concrete Gay-Lussac state stays non-bursting
over two frames. -/
theorem C10_witness : framesAnyExploded [0.1, 0.2] glSafeState = false :=
  (C10_gayLussac_burst_prestate glSafeState rfl).2 (by norm_num [glSafeState]) [0.1, 0.2]

/-- C5: from a running Mission state at rest on the ground, if the computed
lift rhoAir·volume·g (with rhoAir and volume computed at the sea-level
atmosphere 101325 Pa / 293 K that the step installs at altitude 0) exceeds
the weight (massPayload + massBalloon + moles·M_gas)·g, then one step with
dt = 0.1 makes the velocity strictly positive. -/
theorem C5_mission_liftoff (s : SimState)
    (hm : s.mode = Mode.MISSION) (hrun : s.isRunning = true)
    (halt : s.env.altitude = 0) (hvel : s.balloon.velocity = 0)
    (hmass : 0 < s.balloon.massPayload + s.balloon.massBalloon +
      s.balloon.moles * molarMass s.balloon.gasType)
    (hlift : (s.balloon.massPayload + s.balloon.massBalloon +
        s.balloon.moles * molarMass s.balloon.gasType) * s.env.gravity <
      ((101325 * 0.0289644) / (R * 293)) *
        calculateVolume s.balloon.moles 293 101325 * s.env.gravity) :
    0 < (simulationLoop 0.1 s).1.balloon.velocity := by
  have hatm : getAtmosphere 0 = ⟨101325, 293⟩ := by
    unfold getAtmosphere
    norm_num [Real.one_rpow]
  have henv : envUpdate 0.1 s = { s with
      env := { s.env with altitude := 0, pressure := 101325, temperature := 293 },
      balloon := { s.balloon with positionY := 0 } } := by
    unfold envUpdate
    rw [if_pos ⟨hm, hrun⟩]
    dsimp only
    rw [halt, hvel]
    norm_num [hatm]
  have hgas := gasUpdate_of_ne (envUpdate 0.1 s)
    (by rw [envUpdate_mode, hm]; simp)
  have hX : gasUpdate (envUpdate 0.1 s) = { s with
      env := { s.env with altitude := 0, pressure := 101325, temperature := 293 },
      balloon := { s.balloon with
        positionY := 0
        volume := calculateVolume s.balloon.moles 293 101325
        radius := (3 * calculateVolume s.balloon.moles 293 101325 /
          (4 * Real.pi)) ^ ((1 : ℝ) / 3) } } := by
    rw [hgas, henv]
  have hfin : (simulationLoop 0.1 s).1 = forcesUpdate 0.1 (gasUpdate (envUpdate 0.1 s)) := rfl
  have hYm : (gasUpdate (envUpdate 0.1 s)).mode = Mode.MISSION := by
    rw [gasUpdate_mode, envUpdate_mode, hm]
  have hYr : (gasUpdate (envUpdate 0.1 s)).isRunning = true := by
    rw [gasUpdate_isRunning, envUpdate_isRunning, hrun]
  have hYv : (gasUpdate (envUpdate 0.1 s)).balloon.velocity = 0 := by
    rw [hX]; exact hvel
  have hYnn : ¬ (gasUpdate (envUpdate 0.1 s)).env.altitude < 0 := by
    rw [hX]; norm_num
  rw [hfin, forcesUpdate_velocity_rest 0.1 (gasUpdate (envUpdate 0.1 s)) hYm hYr hYv hYnn,
    hX]
  dsimp only
  exact mul_pos (div_pos (sub_pos.mpr hlift) hmass) (by norm_num)

/-- C5 witness: a strongly buoyant concrete Mission state at rest. -/
theorem C5_witness : 0 < (simulationLoop 0.1 missionRestState).1.balloon.velocity :=
  C5_mission_liftoff missionRestState rfl rfl rfl rfl
    (by norm_num [missionRestState, molarMass])
    (by norm_num [missionRestState, molarMass, calculateVolume, R])

/-- C6 (amended): every step whose resulting radius reaches the burst
threshold reports exploded = true (hence in particular the crossing step
does), the flag is exactly the comparison radius ≥ maxRadius on the
post-step state, and the burst check itself modifies nothing: the returned
state is exactly the one produced by the three update phases. -/
theorem C6_burst_report (dt : ℝ) (s : SimState) :
    (simulationLoop dt s).1 = forcesUpdate dt (gasUpdate (envUpdate dt s)) ∧
    ((simulationLoop dt s).2 = true ↔
      (simulationLoop dt s).1.balloon.maxRadius ≤ (simulationLoop dt s).1.balloon.radius) :=
  ⟨rfl, burstCheck_true_iff (forcesUpdate dt (gasUpdate (envUpdate dt s)))⟩

/-- C6 counterexample: from a Gay-Lussac state whose radius 6 already
exceeds the threshold 5, two consecutive steps BOTH report exploded = true
although no new crossing happens, so the engine does not report the burst
exactly once per crossing. -/
theorem C6_counterexample :
    (simulationLoop 0.1 glBurstState).2 = true ∧
    (simulationLoop 0.1 (simulationLoop 0.1 glBurstState).1).2 = true := by
  have h1 := step_gayLussac 0.1 glBurstState rfl
  have hb : burstCheck glBurstState = true := by
    rw [burstCheck_true_iff]
    norm_num [glBurstState]
  refine ⟨by rw [h1.2, hb], ?_⟩
  rw [h1.1]
  rw [h1.2, hb]

/-- C7: a running Mission step that drives altitude negative leaves the
post-step state clamped at altitude = 0, positionY = 0, velocity = 0; and
from any state with nonnegative altitude, any step keeps altitude
nonnegative. -/
theorem C7_altitude_invariant (dt : ℝ) (s : SimState) :
    (s.mode = Mode.MISSION → s.isRunning = true →
      s.env.altitude + s.balloon.velocity * dt < 0 →
      (simulationLoop dt s).1.env.altitude = 0 ∧
      (simulationLoop dt s).1.balloon.positionY = 0 ∧
      (simulationLoop dt s).1.balloon.velocity = 0) ∧
    (0 ≤ s.env.altitude → 0 ≤ (simulationLoop dt s).1.env.altitude) := by
  have hres : (simulationLoop dt s).1 = forcesUpdate dt (gasUpdate (envUpdate dt s)) := rfl
  constructor
  · intro hm hr hneg
    have htm : (gasUpdate (envUpdate dt s)).mode = Mode.MISSION := by
      rw [gasUpdate_mode, envUpdate_mode, hm]
    have htr : (gasUpdate (envUpdate dt s)).isRunning = true := by
      rw [gasUpdate_isRunning, envUpdate_isRunning, hr]
    have htalt : (gasUpdate (envUpdate dt s)).env.altitude =
        s.env.altitude + s.balloon.velocity * dt := by
      rw [gasUpdate_env, envUpdate_mission dt s hm hr]
    have hneg' : (gasUpdate (envUpdate dt s)).env.altitude < 0 := by
      rw [htalt]; exact hneg
    rw [hres]
    exact forcesUpdate_clamp dt _ htm htr hneg'
  · intro h0
    by_cases hg : s.mode = Mode.MISSION ∧ s.isRunning = true
    · have htalt : (gasUpdate (envUpdate dt s)).env.altitude =
          s.env.altitude + s.balloon.velocity * dt := by
        rw [gasUpdate_env, envUpdate_mission dt s hg.1 hg.2]
      by_cases hneg : (gasUpdate (envUpdate dt s)).env.altitude < 0
      · have htm : (gasUpdate (envUpdate dt s)).mode = Mode.MISSION := by
          rw [gasUpdate_mode, envUpdate_mode, hg.1]
        have htr : (gasUpdate (envUpdate dt s)).isRunning = true := by
          rw [gasUpdate_isRunning, envUpdate_isRunning, hg.2]
        have hcl := forcesUpdate_clamp dt _ htm htr hneg
        rw [hres, hcl.1]
      · rw [hres, forcesUpdate_noclamp_env dt _ hneg]
        exact not_lt.mp hneg
    · have h1 : envUpdate dt s = s := by
        unfold envUpdate; rw [if_neg hg]
      have hg' : ¬ ((gasUpdate s).mode = Mode.MISSION ∧ (gasUpdate s).isRunning = true) := by
        rw [gasUpdate_mode, gasUpdate_isRunning]; exact hg
      have h3 : forcesUpdate dt (gasUpdate s) = gasUpdate s := by
        unfold forcesUpdate; rw [if_neg hg']
      rw [hres, h1, h3, gasUpdate_env]
      exact h0

/-- C7 witness: a concrete running Mission state descending from altitude 0
at 1 m/s is clamped to the ground with zero velocity, and its altitude stays
nonnegative. -/
theorem C7_witness :
    (simulationLoop 0.1 missionFallState).1.env.altitude = 0 ∧
    (simulationLoop 0.1 missionFallState).1.balloon.positionY = 0 ∧
    (simulationLoop 0.1 missionFallState).1.balloon.velocity = 0 ∧
    0 ≤ (simulationLoop 0.1 missionFallState).1.env.altitude := by
  have h := C7_altitude_invariant 0.1 missionFallState
  have h1 := h.1 rfl rfl (by norm_num [missionFallState])
  exact ⟨h1.1, h1.2.1, h1.2.2, h.2 (by norm_num [missionFallState])⟩

/-- C8 (amended): `simulationLoop` integrates with exactly the dt it is
given; the 0.1 s cap lives in the caller, whose frame delta
min((currentTime − lastTime)/1000, 0.1) never exceeds 0.1 s. -/
theorem C8_caller_caps_dt (currentTime lastTime : ℝ) :
    animateDeltaTime currentTime lastTime ≤ 0.1 :=
  min_le_right _ _

/-- C8 counterexample: the step implementation does not cap dt: called with
dt = 1 on a Mission state rising at 1 m/s from altitude 0, the step
advances altitude by a full 1 m, beyond the 0.1 m a capped tick allows. -/
theorem C8_counterexample :
    (simulationLoop 1 missionRiseState).1.env.altitude = 1 ∧
    ¬ (simulationLoop 1 missionRiseState).1.env.altitude ≤ 0.1 := by
  have hres : (simulationLoop 1 missionRiseState).1 =
      forcesUpdate 1 (gasUpdate (envUpdate 1 missionRiseState)) := rfl
  have htalt : (gasUpdate (envUpdate 1 missionRiseState)).env.altitude = 1 := by
    rw [gasUpdate_env, envUpdate_mission 1 missionRiseState rfl rfl]
    norm_num [missionRiseState]
  have hnn : ¬ (gasUpdate (envUpdate 1 missionRiseState)).env.altitude < 0 := by
    rw [htalt]; norm_num
  have halt : (simulationLoop 1 missionRiseState).1.env.altitude = 1 := by
    rw [hres, forcesUpdate_noclamp_env 1 _ hnn, htalt]
  exact ⟨halt, by rw [halt]; norm_num⟩

/-- C9 counterexample: filling at 101325 Pa, 293 K, radius 1 m yields moles
≈ 174.23 mol, which is more than 1 mol away from the claimed 172.5 mol. -/
theorem C9_counterexample :
    ¬ |(fill 101325 293 1 freeFillState).balloon.moles - 172.5| ≤ 1 := by
  have hval : (fill 101325 293 1 freeFillState).balloon.moles =
      (101325 * ((4 / 3) * Real.pi * 1 ^ (3 : ℕ))) / (8.314 * 293) := by
    show calculateMoles 101325 ((4 / 3) * Real.pi * 1 ^ (3 : ℕ)) 293 = _
    rw [calculateMoles, R]
  have hgt : (173.5 : ℝ) < (fill 101325 293 1 freeFillState).balloon.moles := by
    rw [hval, lt_div_iff₀ (by norm_num : (0 : ℝ) < 8.314 * 293)]
    nlinarith [Real.pi_gt_d6]
  rw [not_le]
  have h1 : (1 : ℝ) < (fill 101325 293 1 freeFillState).balloon.moles - 172.5 := by
    linarith
  exact lt_of_lt_of_le h1 (le_abs_self _)

/-- C9 (amended): filling at 101325 Pa, 293 K, radius 1 m with helium yields
moles strictly between 174 and 174.5 (≈ 174.23 mol), and a subsequent
Free-mode step with unchanged pressure and temperature returns radius
exactly 1. -/
theorem C9_fill_scenario :
    174 < (fill 101325 293 1 freeFillState).balloon.moles ∧
    (fill 101325 293 1 freeFillState).balloon.moles < 174.5 ∧
    (simulationLoop 0.1 (fill 101325 293 1 freeFillState)).1.balloon.radius = 1 := by
  have hval : (fill 101325 293 1 freeFillState).balloon.moles =
      (101325 * ((4 / 3) * Real.pi * 1 ^ (3 : ℕ))) / (8.314 * 293) := by
    show calculateMoles 101325 ((4 / 3) * Real.pi * 1 ^ (3 : ℕ)) 293 = _
    rw [calculateMoles, R]
  refine ⟨?_, ?_, ?_⟩
  · rw [hval, lt_div_iff₀ (by norm_num : (0 : ℝ) < 8.314 * 293)]
    nlinarith [Real.pi_gt_d6]
  · rw [hval, div_lt_iff₀ (by norm_num : (0 : ℝ) < 8.314 * 293)]
    nlinarith [Real.pi_lt_d6]
  · obtain ⟨-, -, -, hrad⟩ := step_idle_like 0.1 (fill 101325 293 1 freeFillState)
      (by simp [fill, freeFillState]) (by simp [fill, freeFillState])
    rw [hrad]
    have hVcm : calculateVolume (fill 101325 293 1 freeFillState).balloon.moles
        (fill 101325 293 1 freeFillState).env.temperature
        (fill 101325 293 1 freeFillState).env.pressure =
        (4 / 3) * Real.pi * 1 ^ (3 : ℕ) := by
      show calculateVolume (calculateMoles 101325 ((4 / 3) * Real.pi * 1 ^ (3 : ℕ)) 293)
        293 101325 = _
      exact calculateVolume_calculateMoles 101325 293 _ (by norm_num) (by norm_num)
    rw [hVcm]
    exact radius_of_sphereVolume 1 (by norm_num)

/-- C1 witness at P = 2, T = 3, r = 1. -/
theorem C1_witness :
    (simulationLoop 1 (fill 2 3 1
      ⟨Mode.IDLE, false, ⟨0, 2, 3, 9.81⟩,
        ⟨GasType.HE, 0, 0, 1, 5, 0, 0, 0.5, 0.2, 0⟩,
        ⟨false, 0, 0, 0, 10, 0, Param.other, 1⟩⟩)).1.balloon.volume =
      (4 / 3) * Real.pi * 1 ^ (3 : ℕ) ∧
    (simulationLoop 1 (fill 2 3 1
      ⟨Mode.IDLE, false, ⟨0, 2, 3, 9.81⟩,
        ⟨GasType.HE, 0, 0, 1, 5, 0, 0, 0.5, 0.2, 0⟩,
        ⟨false, 0, 0, 0, 10, 0, Param.other, 1⟩⟩)).1.balloon.radius = 1 :=
  C1_fill_step_roundTrip 2 3 1 1 _ (by norm_num) (by norm_num) (by norm_num) rfl rfl rfl

end Gases
